import Mathlib

/-!
Verification development for the RR-Traffic-Analysis-System repository.

The Python sources are shallowly embedded:
  * app/utils/math_utils.py   — `line_len_sq`, `proj_t`, `is_within_segment`,
    `signed_dist`, `calculate_line_signed_distance` (coordinates as exact
    rationals; the distance lives in the reals because of `math.hypot`).
  * app/models.py             — `VehicleEvent`, `get_distribution`,
    `get_statistics`.
  * app/services/processing_service.py — the tracking-state crossing fold
    (`stepTrack`, `runTrack`), the finite-file loop (`processVideoLoop`,
    `runFileJob`), the live-stream retry loop (`liveLoop`, `runLiveJob`),
    the frame-relay push (`streamFrame`) and the registry replace path
    (`startProcessingModel`).
Python floats are modelled as exact rationals/reals, mutable per-id
dictionaries as an explicit fold state, raised exceptions as `Except`.
-/

namespace RRTraffic

/-! ### Geometry (app/utils/math_utils.py, calculate_line_signed_distance) -/

/-- Squared length of the segment p1-p2: `dx*dx + dy*dy` in the source. -/
def line_len_sq (p1 p2 : ℚ × ℚ) : ℚ :=
  (p2.1 - p1.1) * (p2.1 - p1.1) + (p2.2 - p1.2) * (p2.2 - p1.2)

/-- Projection parameter `t = ((cx - x1) * dx + (cy - y1) * dy) / line_len_sq`.
Rational division by zero yields 0, but the source only uses `t` when
`line_len_sq ≠ 0`. -/
def proj_t (p1 p2 c : ℚ × ℚ) : ℚ :=
  ((c.1 - p1.1) * (p2.1 - p1.1) + (c.2 - p1.2) * (p2.2 - p1.2)) / line_len_sq p1 p2

/-- Within-segment test of the source: false on a degenerate segment,
otherwise `-margin <= t <= 1.0 + margin` with `margin = 0.1`. -/
def is_within_segment (p1 p2 c : ℚ × ℚ) : Bool :=
  if line_len_sq p1 p2 = 0 then false
  else decide (-(1 / 10 : ℚ) ≤ proj_t p1 p2 c ∧ proj_t p1 p2 c ≤ 1 + 1 / 10)

/-- Coefficient `a = y2 - y1` of the line through p1, p2. -/
def lineA (p1 p2 : ℚ × ℚ) : ℚ := p2.2 - p1.2

/-- Coefficient `b = x1 - x2` of the line through p1, p2. -/
def lineB (p1 p2 : ℚ × ℚ) : ℚ := p1.1 - p2.1

/-- Coefficient `c = x2 * y1 - x1 * y2` of the line through p1, p2. -/
def lineC (p1 p2 : ℚ × ℚ) : ℚ := p2.1 * p1.2 - p1.1 * p2.2

/-- Real value of `math.hypot a b`. -/
noncomputable def hypotR (a b : ℚ) : ℝ :=
  Real.sqrt ((a : ℝ) ^ 2 + (b : ℝ) ^ 2)

/-- Signed distance of the source: 0 on the degenerate early return,
otherwise `(a * cx + b * cy + c) / hypot a b` guarded by `denom != 0`. -/
noncomputable def signed_dist (p1 p2 c : ℚ × ℚ) : ℝ :=
  if line_len_sq p1 p2 = 0 then 0
  else if hypotR (lineA p1 p2) (lineB p1 p2) = 0 then 0
  else ((lineA p1 p2 : ℝ) * (c.1 : ℝ) + (lineB p1 p2 : ℝ) * (c.2 : ℝ) + (lineC p1 p2 : ℝ))
        / hypotR (lineA p1 p2) (lineB p1 p2)

/-- Return value `(signed_dist, is_within_segment)` of
`calculate_line_signed_distance`. -/
noncomputable def calculate_line_signed_distance (p1 p2 c : ℚ × ℚ) : ℝ × Bool :=
  (signed_dist p1 p2 c, is_within_segment p1 p2 c)

/-! ### Data model (app/models.py) -/

/-- One vehicle detection event; mirrors the `VehicleEvent` class
(`timestamp` as a rational number of seconds). -/
structure VehicleEvent where
  vehicle_type : String
  direction : String
  timestamp : ℚ
  seats_min : Nat
  seats_max : Nat
deriving DecidableEq, Repr

/-- Result record of `SessionData.get_statistics`. -/
structure Statistics where
  vehicles_in : Nat
  vehicles_out : Nat
  net_vehicles : Int
  people_on_site_min : Int
  people_on_site_max : Int
  vehicle_distribution : List (String × Nat)
deriving DecidableEq, Repr

/-- One step of `_get_distribution`: `distribution[t] = distribution.get(t, 0) + 1`,
on an insertion-ordered association list (Python dict semantics). -/
def bumpType : List (String × Nat) → String → List (String × Nat)
  | [], t => [(t, 1)]
  | (k, n) :: rest, t =>
      if k == t then (k, n + 1) :: rest else (k, n) :: bumpType rest t

/-- The `_get_distribution` loop over the event list. -/
def get_distribution (events : List VehicleEvent) : List (String × Nat) :=
  events.foldl (fun acc e => bumpType acc e.vehicle_type) []

/-- Direct transcription of `SessionData.get_statistics`. -/
def get_statistics (events : List VehicleEvent) : Statistics :=
  let vin := (events.filter (fun e => e.direction == "IN")).length
  let vout := (events.filter (fun e => e.direction == "OUT")).length
  let pmin := ((events.filter (fun e => e.direction == "IN")).map
      (fun e => (e.seats_min : Int))).sum
  let pmax := ((events.filter (fun e => e.direction == "IN")).map
      (fun e => (e.seats_max : Int))).sum
  let pminOut := ((events.filter (fun e => e.direction == "OUT")).map
      (fun e => (e.seats_min : Int))).sum
  let pmaxOut := ((events.filter (fun e => e.direction == "OUT")).map
      (fun e => (e.seats_max : Int))).sum
  { vehicles_in := vin
    vehicles_out := vout
    net_vehicles := (vin : Int) - (vout : Int)
    people_on_site_min := pmin - pminOut
    people_on_site_max := pmax - pmaxOut
    vehicle_distribution := get_distribution events }

/-- The concrete event sequence of the claim:
IN Sedan(1, 5), OUT Sedan(1, 5), IN SUV(1, 8). -/
def c2Events : List VehicleEvent :=
  [ { vehicle_type := "Sedan", direction := "IN", timestamp := 0, seats_min := 1, seats_max := 5 }
  , { vehicle_type := "Sedan", direction := "OUT", timestamp := 1, seats_min := 1, seats_max := 5 }
  , { vehicle_type := "SUV", direction := "IN", timestamp := 2, seats_min := 1, seats_max := 8 } ]

/-! ### Tracking state and crossing detection
(app/services/processing_service.py, `_detect_line_crossings` and
`_create_crossing_event`, projected onto one tracker id) -/

/-- Constant `ProcessingConfig.CROSSING_DISTANCE_THRESHOLD = 25.0`. -/
def CROSSING_DISTANCE_THRESHOLD : ℚ := 25

/-- Direction choice of `_create_crossing_event`:
`direction = 'OUT' if job.camera_role == CameraRole.EXIT.value else 'IN'`. -/
def roleDirection (camera_role : String) : String :=
  if camera_role == "EXIT" then "OUT" else "IN"

/-- Crossing test of `_detect_line_crossings`:
`prev_dist * dist < 0 and min(abs(prev_dist), abs(dist)) < 25.0 and (is_within or prev_within)`. -/
def crossedCond (prev_dist dist : ℚ) (prev_within is_within : Bool) : Bool :=
  decide (prev_dist * dist < 0) &&
    decide (min |prev_dist| |dist| < CROSSING_DISTANCE_THRESHOLD) &&
    (is_within || prev_within)

/-- Per-tracker-id slice of `TrackingState`: the stored
`track_distances[tracker_id]` entry, whether the id is in `counted_ids`,
and the directions of the `VehicleEvent`s created for this id (the other
`VehicleEvent` fields do not depend on the crossing logic). -/
structure CrossState where
  prev : Option (ℚ × Bool)
  counted : Bool
  events : List String
deriving DecidableEq, Repr

/-- One `_detect_line_crossings` iteration for a single tracker id on a
fresh sample `(dist, is_within)`: check the crossing condition against the
stored pair when the id is not yet counted, create the event and mark the
id counted on a crossing, and always store the current pair. -/
def stepTrack (camera_role : String) (s : CrossState) (sample : ℚ × Bool) : CrossState :=
  let s1 :=
    match s.prev with
    | some (pd, pw) =>
        if !s.counted && crossedCond pd sample.1 pw sample.2 then
          { s with counted := true, events := s.events ++ [roleDirection camera_role] }
        else s
    | none => s
  { s1 with prev := some sample }

/-- Feeding a whole sample sequence for one tracker id through
`_detect_line_crossings`, starting from the empty tracking state. -/
def runTrack (camera_role : String) (samples : List (ℚ × Bool)) : CrossState :=
  samples.foldl (stepTrack camera_role) { prev := none, counted := false, events := [] }

/-- Modelled from the spec: the qualifying-pair condition of the claim with
the sign change read as strictly opposite signs, `prevDist * dist < 0`. -/
def specCrossingPair (p q : ℚ × Bool) : Bool :=
  decide (p.1 * q.1 < 0) && decide (min |p.1| |q.1| < 25) && (q.2 || p.2)

/-- Modelled from the spec: the three-valued sign function used to read the
claim's `sign(prevDist) ≠ sign(dist)` literally. -/
def qsign (q : ℚ) : Int :=
  if 0 < q then 1 else if q < 0 then -1 else 0

/-- Modelled from the spec: the qualifying-pair condition of the claim read
literally, with `sign(prevDist) ≠ sign(dist)`. -/
def specCrossingPairSign (p q : ℚ × Bool) : Bool :=
  decide (qsign p.1 ≠ qsign q.1) && decide (min |p.1| |q.1| < 25) && (q.2 || p.2)

/-- Whether some consecutive pair of the sample list satisfies a given
pair condition. -/
def hasQualifyingPair (f : (ℚ × Bool) → (ℚ × Bool) → Bool) : List (ℚ × Bool) → Bool
  | p :: q :: rest => f p q || hasQualifyingPair f (q :: rest)
  | _ => false

/-! ### Processing job loops (app/services/processing_service.py) -/

/-- Job status values of the `ProcessingStatus` enum. -/
inductive JobStatus
  | pending
  | processing
  | completed
  | stopped
  | error (msg : String)
deriving DecidableEq, Repr

/-- Constant `ProcessingConfig.PROGRESS_UPDATE_INTERVAL = 10`. -/
def PROGRESS_UPDATE_INTERVAL : Nat := 10

/-- Constant `ProcessingConfig.STREAM_FRAME_INTERVAL = 2`. -/
def STREAM_FRAME_INTERVAL : Nat := 2

/-- Capacity of each queue in `app/state.py`: `queue.Queue(maxsize=10)`. -/
def FRAME_QUEUE_MAXSIZE : Nat := 10

/-- Constant `Config.LIVE_STREAM_RETRY_ATTEMPTS = 5`. -/
def LIVE_STREAM_RETRY_ATTEMPTS : Nat := 5

/-- Event-flush part of `_handle_periodic_updates`: when
`len(session_data.events) > last_event_count` it calls
`firebase.save_event` per new event and `firebase.save_session`, with no
exception handling of its own; `sinkOk = false` models the persistence
store raising on every call. Returns the updated `last_event_count`. -/
def handlePeriodicUpdates (sinkOk : Bool) (evCount lastCount : Nat) : Except String Nat :=
  if lastCount < evCount then
    if sinkOk then Except.ok evCount else Except.error "sink failure"
  else Except.ok evCount

/-- Frame loop of `_process_video` over a finite source. Each list entry
is the number of crossing events appended while processing that frame;
every `PROGRESS_UPDATE_INTERVAL`-th frame index runs
`_handle_periodic_updates`, whose exception aborts the loop. The loop body
contains no check of `job.should_stop`; it exits only when the source is
exhausted, returning the number of frames processed. -/
def processVideoLoop (sinkOk : Bool) : List Nat → Nat → Nat → Nat → Except String Nat
  | [], idx, _evCount, _lastCount => Except.ok idx
  | n :: rest, idx, evCount, lastCount =>
      let evCount' := evCount + n
      if idx % PROGRESS_UPDATE_INTERVAL = 0 then
        match handlePeriodicUpdates sinkOk evCount' lastCount with
        | Except.ok lastCount' => processVideoLoop sinkOk rest (idx + 1) evCount' lastCount'
        | Except.error e => Except.error e
      else processVideoLoop sinkOk rest (idx + 1) evCount' lastCount

/-- Terminal status of `_run_processing_job` for a finite-source job:
on a propagated exception the job goes to `error`; otherwise a final
`firebase.save_session` runs (also unguarded), then `stopped` wins over
`completed` exactly when the sticky `should_stop` flag was ever set
(`stopAt = some k` means it was set at frame iteration `k`). -/
def runFileJob (sinkOk : Bool) (stopAt : Option Nat) (frames : List Nat) : JobStatus :=
  match processVideoLoop sinkOk frames 0 0 0 with
  | Except.error e => JobStatus.error e
  | Except.ok _ =>
      if !sinkOk then JobStatus.error "sink failure"
      else if stopAt.isSome then JobStatus.stopped
      else JobStatus.completed

/-- Outcome of the live-stream loop on a finite window of operation
outcomes: either the retry budget was exceeded (`ConnectionError` raised,
with the operations that were never attempted), or the loop is still
running with the given connection state and retry counter. -/
inductive LiveResult
  | errorOut (remaining : List Bool)
  | running (connected : Bool) (retry : Nat)
deriving DecidableEq, Repr

/-- Loop of `_process_live_stream` with `job.should_stop` never set. Each
list element is the outcome of the next connect attempt (when
disconnected) or frame read (when connected). At the top of an iteration
with no open capture, `retry_count >= max_retries` raises before anything
else; a failed open or read increments `retry_count` and forces
reconnection; a successful open or read resets it to 0. (In the source a
successful open is followed by a read in the same iteration; the model
performs that read as the next element, which changes no observable.) -/
def liveLoop : Bool → Nat → List Bool → LiveResult
  | c, retry, [] =>
      if !c && decide (LIVE_STREAM_RETRY_ATTEMPTS ≤ retry) then LiveResult.errorOut []
      else LiveResult.running c retry
  | c, retry, ok :: rest =>
      if !c && decide (LIVE_STREAM_RETRY_ATTEMPTS ≤ retry) then LiveResult.errorOut (ok :: rest)
      else if ok then liveLoop true 0 rest
      else liveLoop false (retry + 1) rest

/-- Terminal status of `_run_processing_job` for a live-stream job on the
same operation window: the `ConnectionError` of an exceeded retry budget
propagates and yields the `error` status with the message
`f"Lost connection to stream after {max_retries} retries"`; `none` means
the loop is still running after the window. -/
def runLiveJob (ops : List Bool) : Option JobStatus :=
  match liveLoop false 0 ops with
  | LiveResult.errorOut _ => some (JobStatus.error "Lost connection to stream after 5 retries")
  | LiveResult.running _ _ => none

/-- Frame push `_stream_frame`: skip unless the frame index is a multiple
of `STREAM_FRAME_INTERVAL`, then `put_nowait` on the bounded queue,
dropping the frame when the queue is full (`queue.Full` is swallowed). -/
def streamFrame {α : Type} (frameQueue : List α) (frame : α) (frameIdx : Nat) : List α :=
  if frameIdx % STREAM_FRAME_INTERVAL ≠ 0 then frameQueue
  else if frameQueue.length < FRAME_QUEUE_MAXSIZE then frameQueue ++ [frame]
  else frameQueue

/-! ### Job registry replace path (`start_processing`) -/

/-- Registry view of one `ProcessingJob` and its background thread. -/
structure RegEntry where
  status : JobStatus
  threadRunning : Bool
  shouldStop : Bool
deriving DecidableEq, Repr

/-- Replace path of `start_processing` for one `(session_id, camera_role)`
slot. If the existing job is `processing`, it calls `existing_job.stop()`
(sets `should_stop`) and then `thread.join(timeout=5.0)`; the join never
kills the thread, so the old thread has exited afterwards only when it
observed the stop flag within the timeout (`oldObservesStop`). The new
job is then registered and its thread started regardless. Returns the new
registry entry and the old job's state after the call. -/
def startProcessingModel (old : Option RegEntry) (oldObservesStop : Bool) :
    RegEntry × Option RegEntry :=
  let oldAfter :=
    match old with
    | none => none
    | some e =>
        if e.status = JobStatus.processing then
          let e1 : RegEntry := { e with shouldStop := true }
          if e1.threadRunning && oldObservesStop then
            some { e1 with threadRunning := false, status := JobStatus.stopped }
          else some e1
        else some e
  ({ status := JobStatus.pending, threadRunning := true, shouldStop := false }, oldAfter)

/-- Number of background tasks producing into the slot's frame queue once
`start_processing` returns: the new job's thread plus the old thread if it
is still running. -/
def producersAfterStart (old : Option RegEntry) (oldObservesStop : Bool) : Nat :=
  let r := startProcessingModel old oldObservesStop
  (if (r.2.map (fun e => e.threadRunning)).getD false then 1 else 0)
    + (if r.1.threadRunning then 1 else 0)

/-! ### Theorems -/

/-- The squared segment length vanishes exactly on a degenerate segment. -/
lemma line_len_sq_eq_zero_iff (p1 p2 : ℚ × ℚ) : line_len_sq p1 p2 = 0 ↔ p1 = p2 := by
  unfold line_len_sq
  constructor
  · intro h
    have hx0 : (p2.1 - p1.1) * (p2.1 - p1.1) = 0 := by
      nlinarith [mul_self_nonneg (p2.1 - p1.1), mul_self_nonneg (p2.2 - p1.2)]
    have hy0 : (p2.2 - p1.2) * (p2.2 - p1.2) = 0 := by
      nlinarith [mul_self_nonneg (p2.1 - p1.1), mul_self_nonneg (p2.2 - p1.2)]
    have hx : p1.1 = p2.1 := by have := mul_self_eq_zero.mp hx0; linarith
    have hy : p1.2 = p2.2 := by have := mul_self_eq_zero.mp hy0; linarith
    exact Prod.ext_iff.mpr ⟨hx, hy⟩
  · intro h
    subst h
    ring

/-- The argument of `math.hypot` squared agrees with the squared segment
length: a² + b² = dx² + dy². -/
lemma lineAB_sq (p1 p2 : ℚ × ℚ) :
    ((lineA p1 p2 : ℚ) : ℝ) ^ 2 + ((lineB p1 p2 : ℚ) : ℝ) ^ 2 =
      ((line_len_sq p1 p2 : ℚ) : ℝ) := by
  unfold lineA lineB line_len_sq
  push_cast
  ring

/-- On a non-degenerate segment the hypot denominator is positive. -/
lemma hypotR_pos (p1 p2 : ℚ × ℚ) (h : line_len_sq p1 p2 ≠ 0) :
    0 < hypotR (lineA p1 p2) (lineB p1 p2) := by
  unfold hypotR
  apply Real.sqrt_pos.mpr
  rw [lineAB_sq]
  have h0 : (0 : ℚ) ≤ line_len_sq p1 p2 :=
    add_nonneg (mul_self_nonneg _) (mul_self_nonneg _)
  have h1 : (0 : ℚ) < line_len_sq p1 p2 := lt_of_le_of_ne h0 (Ne.symm h)
  exact_mod_cast h1

/-- C7: the geometry function returns
distance = (a·x + b·y + c) / hypot(a, b) with a = y2−y1, b = x1−x2,
c = x2·y1−x1·y2; distance 0 on a degenerate segment, with within = false;
and within = true exactly when the segment is non-degenerate and the
projection parameter lies in [−0.1, 1.1]. -/
theorem c7_geometry (p1 p2 c : ℚ × ℚ) :
    (calculate_line_signed_distance p1 p2 c).1 =
      ((lineA p1 p2 : ℚ) * (c.1 : ℚ) + (lineB p1 p2 : ℚ) * (c.2 : ℚ) + (lineC p1 p2 : ℚ) : ℚ)
        / Real.sqrt (((lineA p1 p2 : ℚ) : ℝ) ^ 2 + ((lineB p1 p2 : ℚ) : ℝ) ^ 2) ∧
    (p1 = p2 → calculate_line_signed_distance p1 p2 c = (0, false)) ∧
    ((calculate_line_signed_distance p1 p2 c).2 = true ↔
      p1 ≠ p2 ∧ -(1 / 10 : ℚ) ≤ proj_t p1 p2 c ∧ proj_t p1 p2 c ≤ 1 + 1 / 10) := by
  refine ⟨?_, ?_, ?_⟩
  · show signed_dist p1 p2 c = _
    by_cases hd : line_len_sq p1 p2 = 0
    · have hp : p1 = p2 := (line_len_sq_eq_zero_iff p1 p2).mp hd
      subst hp
      have ha : lineA p1 p1 = 0 := by unfold lineA; ring
      have hb : lineB p1 p1 = 0 := by unfold lineB; ring
      have hc : lineC p1 p1 = 0 := by unfold lineC; ring
      rw [signed_dist, if_pos hd, ha, hb, hc]
      norm_num
    · have hpos := hypotR_pos p1 p2 hd
      rw [signed_dist, if_neg hd, if_neg (ne_of_gt hpos)]
      unfold hypotR
      push_cast
      ring_nf
  · intro hp
    subst hp
    have hd : line_len_sq p1 p1 = 0 := (line_len_sq_eq_zero_iff p1 p1).mpr rfl
    show (signed_dist p1 p1 c, is_within_segment p1 p1 c) = (0, false)
    rw [signed_dist, if_pos hd, is_within_segment, if_pos hd]
  · show is_within_segment p1 p2 c = true ↔ _
    by_cases hd : line_len_sq p1 p2 = 0
    · have hp : p1 = p2 := (line_len_sq_eq_zero_iff p1 p2).mp hd
      rw [is_within_segment, if_pos hd]
      simp [hp]
    · have hp : p1 ≠ p2 := fun h => hd ((line_len_sq_eq_zero_iff p1 p2).mpr h)
      rw [is_within_segment, if_neg hd]
      simp [hp]

/-- C7 witness: the degenerate segment gives (0, false) at a concrete
input. -/
theorem c7_geometry_witness :
    calculate_line_signed_distance (0, 0) (0, 0) (3, 4) = (0, false) :=
  (c7_geometry (0, 0) (0, 0) (3, 4)).2.1 rfl

/-- C8 counterexample: on the segment (0,0)-(20,0) the point (23,0) has
projection parameter t = 23/20 = 1.15, and the code classifies it as
within = false (the claim says within = true), since 1.15 > 1.1. -/
theorem c8_counterexample :
    proj_t (0, 0) (20, 0) (23, 0) = 23 / 20 ∧
      (calculate_line_signed_distance (0, 0) (20, 0) (23, 0)).2 = false := by
  constructor
  · norm_num [proj_t, line_len_sq]
  · show is_within_segment (0, 0) (20, 0) (23, 0) = false
    norm_num [is_within_segment, proj_t, line_len_sq]

/-- C8 (amended): on every non-degenerate segment, a query point with
projection parameter t = 1.15 is classified within = false (1.15 exceeds
the 1.1 margin bound), and one with t = 1.2 is classified within = false. -/
theorem c8_within_margin (p1 p2 c : ℚ × ℚ) (_h : p1 ≠ p2) :
    (proj_t p1 p2 c = 23 / 20 → (calculate_line_signed_distance p1 p2 c).2 = false) ∧
      (proj_t p1 p2 c = 6 / 5 → (calculate_line_signed_distance p1 p2 c).2 = false) := by
  constructor <;> intro ht <;>
    · show is_within_segment p1 p2 c = false
      rw [is_within_segment]
      split
      · rfl
      · rw [ht]
        norm_num

/-- C8 witness: concrete points with t = 1.15 and t = 1.2 on the segment
(0,0)-(20,0), both classified within = false. -/
theorem c8_within_margin_witness :
    (calculate_line_signed_distance (0, 0) (20, 0) (23, 0)).2 = false ∧
      (calculate_line_signed_distance (0, 0) (20, 0) (24, 0)).2 = false := by
  constructor
  · exact (c8_within_margin (0, 0) (20, 0) (23, 0) (by norm_num [Prod.ext_iff])).1
      (by norm_num [proj_t, line_len_sq])
  · exact (c8_within_margin (0, 0) (20, 0) (24, 0) (by norm_num [Prod.ext_iff])).2
      (by norm_num [proj_t, line_len_sq])

/-- The crossing test of the code coincides with the spec's qualifying
condition once the sign change is read as strictly opposite signs. -/
lemma specCrossingPair_eq_crossedCond (p q : ℚ × Bool) :
    specCrossingPair p q = crossedCond p.1 q.1 p.2 q.2 := rfl

/-- Last sample of `p :: l`, the pair left in `track_distances` after the
run. -/
def lastSample : (ℚ × Bool) → List (ℚ × Bool) → (ℚ × Bool)
  | p, [] => p
  | _, q :: rest => lastSample q rest

/-- Unfolding equation of `hasQualifyingPair` on two explicit samples. -/
lemma hasQualifyingPair_cons2 (f : (ℚ × Bool) → (ℚ × Bool) → Bool)
    (p q : ℚ × Bool) (rest : List (ℚ × Bool)) :
    hasQualifyingPair f (p :: q :: rest) = (f p q || hasQualifyingPair f (q :: rest)) := rfl

/-- A counted tracker id never produces another event: the step only
refreshes the stored distance pair. -/
lemma stepTrack_counted (role : String) (p x : ℚ × Bool) (ev : List String) :
    stepTrack role { prev := some p, counted := true, events := ev } x =
      { prev := some x, counted := true, events := ev } := by
  obtain ⟨pd, pw⟩ := p
  simp [stepTrack]

/-- An uncounted step either creates the one event and marks the id
counted, or leaves both unchanged, always storing the new pair. -/
lemma stepTrack_uncounted (role : String) (p q : ℚ × Bool) :
    stepTrack role { prev := some p, counted := false, events := [] } q =
      (if specCrossingPair p q = true
       then { prev := some q, counted := true, events := [roleDirection role] }
       else { prev := some q, counted := false, events := [] }) := by
  obtain ⟨pd, pw⟩ := p
  rw [specCrossingPair_eq_crossedCond]
  cases h : crossedCond pd q.1 pw q.2 <;> simp [stepTrack, h]

/-- Folding further samples over a counted state only moves the stored
pair to the last sample. -/
lemma foldl_stepTrack_counted (role : String) (l : List (ℚ × Bool)) :
    ∀ (p : ℚ × Bool) (ev : List String),
      List.foldl (stepTrack role) { prev := some p, counted := true, events := ev } l =
        { prev := some (lastSample p l), counted := true, events := ev } := by
  induction l with
  | nil => intro p ev; rfl
  | cons q rest ih =>
      intro p ev
      rw [List.foldl_cons, stepTrack_counted role p q ev]
      exact ih q ev

/-- Full characterization of the fold from an uncounted state holding a
previous pair `p`: the stored pair ends at the last sample, the id gets
counted exactly when some consecutive pair of `p :: l` satisfies the
crossing condition, and exactly one event (with the role-derived
direction) is created in that case. -/
lemma foldl_stepTrack_uncounted (role : String) (l : List (ℚ × Bool)) :
    ∀ p : ℚ × Bool,
      List.foldl (stepTrack role) { prev := some p, counted := false, events := [] } l =
        { prev := some (lastSample p l)
          counted := hasQualifyingPair specCrossingPair (p :: l)
          events :=
            if hasQualifyingPair specCrossingPair (p :: l) = true
            then [roleDirection role] else [] } := by
  induction l with
  | nil => intro p; rfl
  | cons q rest ih =>
      intro p
      rw [List.foldl_cons, stepTrack_uncounted role p q, hasQualifyingPair_cons2]
      by_cases hc : specCrossingPair p q = true
      · rw [if_pos hc, hc, foldl_stepTrack_counted role rest q [roleDirection role]]
        rfl
      · have hc' : specCrossingPair p q = false := by
          cases h : specCrossingPair p q
          · rfl
          · exact absurd h hc
        rw [if_neg hc, hc', ih q]
        rfl

/-- Events produced by a whole single-id sample run: exactly one event
with the role-derived direction when a qualifying consecutive pair exists,
none otherwise. -/
lemma runTrack_events (role : String) (samples : List (ℚ × Bool)) :
    (runTrack role samples).events =
      if hasQualifyingPair specCrossingPair samples = true
      then [roleDirection role] else [] := by
  cases samples with
  | nil => simp [runTrack, hasQualifyingPair]
  | cons p l =>
      have hr : runTrack role (p :: l) =
          List.foldl (stepTrack role) { prev := some p, counted := false, events := [] } l := rfl
      rw [hr, foldl_stepTrack_uncounted role l p]

/-- The counted flag after a single-id sample run equals the existence of
a qualifying consecutive pair. -/
lemma runTrack_counted (role : String) (samples : List (ℚ × Bool)) :
    (runTrack role samples).counted = hasQualifyingPair specCrossingPair samples := by
  cases samples with
  | nil => simp [runTrack, hasQualifyingPair]
  | cons p l =>
      have hr : runTrack role (p :: l) =
          List.foldl (stepTrack role) { prev := some p, counted := false, events := [] } l := rfl
      rw [hr, foldl_stepTrack_uncounted role l p]

/-- The crossing condition is invariant under negating both distances. -/
lemma specCrossingPair_neg (p q : ℚ × Bool) :
    specCrossingPair (-p.1, p.2) (-q.1, q.2) = specCrossingPair p q := by
  unfold specCrossingPair
  simp [abs_neg]

/-- Existence of a qualifying pair is invariant under negating every
sample's distance. -/
lemma hasQualifyingPair_neg (l : List (ℚ × Bool)) :
    hasQualifyingPair specCrossingPair (l.map (fun s => (-s.1, s.2))) =
      hasQualifyingPair specCrossingPair l := by
  induction l with
  | nil => rfl
  | cons p rest ih =>
      cases rest with
      | nil => rfl
      | cons q rest2 =>
          have h1 : ((p :: q :: rest2).map fun s => (-s.1, s.2)) =
              (-p.1, p.2) :: (-q.1, q.2) :: (rest2.map fun s => (-s.1, s.2)) := rfl
          have ih2 : hasQualifyingPair specCrossingPair
              ((-q.1, q.2) :: rest2.map fun s => (-s.1, s.2)) =
                hasQualifyingPair specCrossingPair (q :: rest2) := ih
          rw [h1, hasQualifyingPair_cons2, hasQualifyingPair_cons2,
            specCrossingPair_neg p q, ih2]

/-- C1 counterexample: for the sample sequence [(0, within), (−1, within)]
the claim's literal condition holds on the consecutive pair —
sign(0) ≠ sign(−1), min(|0|, |−1|) = 0 < 25, within — yet the code
creates no event, because `prev_dist * dist < 0` fails when one distance
is exactly 0. -/
theorem c1_counterexample :
    hasQualifyingPair specCrossingPairSign [((0 : ℚ), true), (-1, true)] = true ∧
      (runTrack "ENTRY" [((0 : ℚ), true), (-1, true)]).events = [] := by
  constructor
  · have h1 : specCrossingPairSign ((0 : ℚ), true) (-1, true) = true := by
      norm_num [specCrossingPairSign, qsign, min_def]
    rw [hasQualifyingPair_cons2, h1]
    rfl
  · rw [runTrack_events]
    have h : specCrossingPair ((0 : ℚ), true) (-1, true) = false := by
      norm_num [specCrossingPair]
    rw [hasQualifyingPair_cons2, h]
    rfl

/-- C1 (amended): for every tracker id and sample sequence, at most one
event is created over the run (the id is counted at most once), and an
event is created exactly when some consecutive pair of that id's own
samples has strictly opposite-signed distances (prevDist · dist < 0) with
min(|prevDist|, |dist|) < 25 and within ∨ prevWithin. -/
theorem c1_crossing_detection (role : String) (samples : List (ℚ × Bool)) :
    (runTrack role samples).events.length ≤ 1 ∧
      (runTrack role samples).counted = hasQualifyingPair specCrossingPair samples ∧
      (runTrack role samples).events.length =
        (if hasQualifyingPair specCrossingPair samples = true then 1 else 0) := by
  refine ⟨?_, runTrack_counted role samples, ?_⟩ <;>
    rw [runTrack_events] <;> by_cases h : hasQualifyingPair specCrossingPair samples = true <;>
      simp [h]

/-- C3: every event created by the crossing logic carries the direction
derived from the camera role alone — ENTRY yields IN and EXIT yields OUT —
and the produced events are unchanged when the sign of every computed
distance is flipped. -/
theorem c3_direction_from_role (role : String) (samples : List (ℚ × Bool)) :
    (runTrack role samples).events.all (fun d => d == roleDirection role) = true ∧
      (runTrack role (samples.map (fun s => (-s.1, s.2)))).events =
        (runTrack role samples).events ∧
      roleDirection "ENTRY" = "IN" ∧ roleDirection "EXIT" = "OUT" := by
  refine ⟨?_, ?_, rfl, rfl⟩
  · rw [runTrack_events]
    by_cases h : hasQualifyingPair specCrossingPair samples = true <;> simp [h]
  · rw [runTrack_events, runTrack_events, hasQualifyingPair_neg]

/-- C2 counterexample: on the event sequence
[IN Sedan(1, 5), OUT Sedan(1, 5), IN SUV(1, 8)] the computed
`vehicle_distribution` maps "Sedan" to 2, not to 1 as the claim states,
because `_get_distribution` counts every event of a type regardless of
direction. -/
theorem c2_counterexample :
    List.lookup "Sedan" (get_statistics c2Events).vehicle_distribution = some 2 ∧
      List.lookup "Sedan" (get_statistics c2Events).vehicle_distribution ≠ some 1 := by
  constructor <;> decide

/-- C2 (amended): `get_statistics` is a pure function of the stored event
list (in this embedding it is a function, so recomputation is trivially
deterministic), and on the fixed sequence
[IN Sedan(1, 5), OUT Sedan(1, 5), IN SUV(1, 8)] it returns
vehicles_in = 2, vehicles_out = 1, net_vehicles = 1,
people_on_site_min = 1, people_on_site_max = 8 and
vehicle_distribution = [Sedan ↦ 2, SUV ↦ 1]. -/
theorem c2_statistics :
    get_statistics c2Events =
      { vehicles_in := 2
        vehicles_out := 1
        net_vehicles := 1
        people_on_site_min := 1
        people_on_site_max := 8
        vehicle_distribution := [("Sedan", 2), ("SUV", 1)] } := by
  decide

/-- With a healthy persistence store a periodic flush always succeeds. -/
lemma handlePeriodicUpdates_ok (a b : Nat) : handlePeriodicUpdates true a b = Except.ok a := by
  unfold handlePeriodicUpdates
  split <;> rfl

/-- With a healthy store the finite-source loop always exhausts its
frames: it returns one processed frame per source frame and never exits
early, whatever the flush cadence hits. -/
lemma processVideoLoop_ok (l : List Nat) :
    ∀ idx ev last, processVideoLoop true l idx ev last = Except.ok (idx + l.length) := by
  induction l with
  | nil => intro idx ev last; rfl
  | cons n rest ih =>
      intro idx ev last
      simp only [processVideoLoop]
      by_cases h : idx % PROGRESS_UPDATE_INTERVAL = 0
      · simp only [if_pos h, handlePeriodicUpdates_ok, ih, List.length_cons]
        congr 1
        omega
      · simp only [if_neg h, ih, List.length_cons]
        congr 1
        omega

/-- C4 counterexample: with stop requested at frame iteration 0 of a
3-frame source, the loop still processes all 3 frames — more than the one
frame-iteration latency the claim allows — although the terminal status is
indeed `stopped`. -/
theorem c4_counterexample :
    runFileJob true (some 0) [0, 0, 0] = JobStatus.stopped ∧
      processVideoLoop true [0, 0, 0] 0 0 0 = Except.ok 3 ∧ ¬(3 - 0 ≤ 1) := by
  refine ⟨rfl, rfl, by omega⟩

/-- C4 (amended): if the stop flag is set at any frame iteration of an
error-free finite-source job, the terminal status is `stopped`, never
`completed` — stop takes priority over natural exhaustion — but the
finite-source loop never polls the flag: it always processes every
remaining source frame, so the exit latency is bounded by the remaining
source length, not by one frame iteration. -/
theorem c4_stop_priority (frames : List Nat) (k : Nat) :
    runFileJob true (some k) frames = JobStatus.stopped ∧
      processVideoLoop true frames 0 0 0 = Except.ok frames.length := by
  have h := processVideoLoop_ok frames 0 0 0
  constructor
  · unfold runFileJob
    rw [h]
    rfl
  · simpa using h

/-- C5 counterexample: a failing persistence store at the first flush
(frame 0, one new event) aborts the loop after a single frame of a
2-frame source and drives the job to `error`, while the same source with
a healthy store completes both frames. -/
theorem c5_counterexample :
    processVideoLoop false [1, 0] 0 0 0 = Except.error "sink failure" ∧
      processVideoLoop true [1, 0] 0 0 0 = Except.ok 2 ∧
      runFileJob false none [1, 0] = JobStatus.error "sink failure" :=
  ⟨rfl, rfl, rfl⟩

/-- C5 (amended): a persistence failure during a periodic flush is not
swallowed: the flush has no exception handling, so the exception
propagates, aborts the processing loop at that flush, and moves the job
to terminal status `error` instead of `completed`. -/
theorem c5_sink_failure (n : Nat) (rest : List Nat) (h : 0 < n) :
    processVideoLoop false (n :: rest) 0 0 0 = Except.error "sink failure" ∧
      runFileJob false none (n :: rest) = JobStatus.error "sink failure" := by
  have h0 : (0 : Nat) % PROGRESS_UPDATE_INTERVAL = 0 := rfl
  have hh : handlePeriodicUpdates false (0 + n) 0 = Except.error "sink failure" := by
    unfold handlePeriodicUpdates
    rw [if_pos (by omega)]
    rfl
  have h1 : processVideoLoop false (n :: rest) 0 0 0 = Except.error "sink failure" := by
    simp only [processVideoLoop, if_pos h0, hh]
  refine ⟨h1, ?_⟩
  unfold runFileJob
  rw [h1]

/-- C5 witness: the amended statement at the concrete 2-frame source with
one event in its first frame. -/
theorem c5_sink_failure_witness :
    processVideoLoop false [1, 0] 0 0 0 = Except.error "sink failure" ∧
      runFileJob false none [1, 0] = JobStatus.error "sink failure" :=
  c5_sink_failure 1 [0] (by decide)

/-- Once disconnected with the retry budget exhausted, the loop raises
immediately, attempting none of the remaining operations. -/
lemma liveLoop_guard (l : List Bool) : liveLoop false 5 l = LiveResult.errorOut l := by
  cases l <;> rfl

/-- A failed connect or read below the budget increments the retry
counter and forces reconnection. -/
lemma liveLoop_fail (c : Bool) (r : Nat) (hr : r < 5) (l : List Bool) :
    liveLoop c r (false :: l) = liveLoop false (r + 1) l := by
  cases c
  · have hn : ¬(LIVE_STREAM_RETRY_ATTEMPTS ≤ r) := by
      unfold LIVE_STREAM_RETRY_ATTEMPTS
      omega
    simp [liveLoop, hn]
  · simp [liveLoop]

/-- Five consecutive failed operations from a reset counter exhaust the
budget: the loop raises with every later operation unattempted. -/
lemma liveLoop_budget (c : Bool) (rest : List Bool) :
    liveLoop c 0 (List.replicate 5 false ++ rest) = LiveResult.errorOut rest := by
  have e : List.replicate 5 false ++ rest =
      false :: false :: false :: false :: false :: rest := rfl
  rw [e, liveLoop_fail c 0 (by omega), liveLoop_fail false 1 (by omega),
    liveLoop_fail false 2 (by omega), liveLoop_fail false 3 (by omega),
    liveLoop_fail false 4 (by omega), liveLoop_guard]

/-- C6: after 5 consecutive failed connect/read operations the live loop
raises — consuming none of the later operations, so no further reconnect
attempt occurs — and the job's terminal status becomes `error` with the
descriptive message; a successful read resets the retry counter to 0. -/
theorem c6_live_retry_budget :
    (∀ (c : Bool) (rest : List Bool),
        liveLoop c 0 (List.replicate 5 false ++ rest) = LiveResult.errorOut rest) ∧
      (∀ (r : Nat) (rest : List Bool), liveLoop true r (true :: rest) = liveLoop true 0 rest) ∧
      (∀ rest : List Bool,
        runLiveJob (List.replicate 5 false ++ rest) =
          some (JobStatus.error "Lost connection to stream after 5 retries")) := by
  refine ⟨liveLoop_budget, ?_, ?_⟩
  · intro r rest
    simp [liveLoop]
  · intro rest
    unfold runLiveJob
    rw [liveLoop_budget]

/-- C9: pushing an annotated frame never blocks and preserves the queue
bound — on a queue already at capacity 10 the frame is dropped and the
queue is unchanged, so the length never exceeds 10. -/
theorem c9_frame_relay_bounded {α : Type} (q : List α) (f : α) (i : Nat)
    (h : q.length ≤ FRAME_QUEUE_MAXSIZE) :
    (streamFrame q f i).length ≤ FRAME_QUEUE_MAXSIZE ∧
      (q.length = FRAME_QUEUE_MAXSIZE → streamFrame q f i = q) := by
  unfold streamFrame
  split
  · exact ⟨h, fun _ => rfl⟩
  · split
    · next hlen =>
        refine ⟨?_, fun he => absurd he (Nat.ne_of_lt hlen)⟩
        rw [List.length_append]
        exact hlen
    · exact ⟨h, fun _ => rfl⟩

/-- C9 witness: a full queue of ten frames stays unchanged and within
bound when one more frame is pushed. -/
theorem c9_frame_relay_bounded_witness :
    (streamFrame (List.replicate 10 (0 : Nat)) 7 0).length ≤ FRAME_QUEUE_MAXSIZE ∧
      streamFrame (List.replicate 10 (0 : Nat)) 7 0 = List.replicate 10 0 := by
  have h := c9_frame_relay_bounded (List.replicate 10 (0 : Nat)) 7 0
    (by simp [FRAME_QUEUE_MAXSIZE])
  exact ⟨h.1, h.2 (by simp [FRAME_QUEUE_MAXSIZE])⟩

/-- C10 counterexample: when the old `processing` job's thread does not
observe the stop flag within the bounded 5-second join (the join never
kills the thread), `start_processing` still registers and starts the new
job, leaving two background tasks producing into the same frame queue. -/
theorem c10_counterexample :
    producersAfterStart
      (some { status := JobStatus.processing, threadRunning := true, shouldStop := false })
      false = 2 := rfl

/-- C10 (amended): on a second `start` for the same (session, role) slot
with the existing job `processing`, the call signals stop on the old job
and joins its thread before registering and starting the new job; when
the old task observes the stop within the bounded wait, exactly one
producer remains — but if the join times out the old task may briefly keep
running alongside the new one (the documented benign race). -/
theorem c10_registry_replace (e : RegEntry) (h1 : e.status = JobStatus.processing)
    (h2 : e.threadRunning = true) :
    producersAfterStart (some e) true = 1 ∧
      (startProcessingModel (some e) true).2 =
        some { status := JobStatus.stopped, threadRunning := false, shouldStop := true } ∧
      (startProcessingModel (some e) true).1 =
        { status := JobStatus.pending, threadRunning := true, shouldStop := false } := by
  obtain ⟨st, tr, ss⟩ := e
  replace h1 : st = JobStatus.processing := h1
  replace h2 : tr = true := h2
  subst h1
  subst h2
  exact ⟨rfl, rfl, rfl⟩

/-- C10 witness: the amended statement at a concrete running entry. -/
theorem c10_registry_replace_witness :
    producersAfterStart
      (some { status := JobStatus.processing, threadRunning := true, shouldStop := false })
      true = 1 :=
  (c10_registry_replace
    { status := JobStatus.processing, threadRunning := true, shouldStop := false } rfl rfl).1

end RRTraffic
